import Mathlib

/-!
Verification development for the T4-to-T1 mapping service.

The repository ships the React frontend (`src/frontend/src/App.tsx` and the
single-button variant bundled with the backend README) and a README for the
FastAPI backend.  The backend pipeline itself (Mapping Engine, Field
Resolver, Form Filler, HTTP endpoints) is not in the source tree, so those
components are modelled from the specification; the frontend handlers are
transcribed from the TypeScript source.
-/

/-! ## A small JSON model

Models the JSON values exchanged between frontend and backend.  Amounts are
decimal-precise rationals, per the spec's "never binary floating point".
Covers the forms the handlers use: strings, numbers and objects.
-/

inductive Json where
  | str : String → Json
  | num : ℚ → Json
  | obj : List (String × Json) → Json
deriving Repr

/-- The `\x7b` character, written by code point to keep it out of literals. -/
def lbraceChar : Char := Char.ofNat 123

/-- The `\x7d` character. -/
def rbraceChar : Char := Char.ofNat 125

/-- The double-quote character. -/
def quoteChar : Char := Char.ofNat 34

/-- The comma character. -/
def commaChar : Char := Char.ofNat 44

/-- The colon character. -/
def colonChar : Char := Char.ofNat 58

/-- Render a decimal amount the way the JSON layer serialises numbers. -/
def renderNum (q : ℚ) : String :=
  if q.den = 1 then toString q.num else toString q

mutual

/-- Modelled from JSON.stringify restricted to the value forms of `Json`. -/
def Json.stringify : Json → String
  | .str s => "\"" ++ s ++ "\""
  | .num q => renderNum q
  | .obj fields => "\x7b" ++ stringifyMembers fields ++ "\x7d"

/-- Comma-separated `"key":value` members of an object. -/
def stringifyMembers : List (String × Json) → String
  | [] => ""
  | [(k, v)] => "\"" ++ k ++ "\":" ++ Json.stringify v
  | (k, v) :: rest =>
      "\"" ++ k ++ "\":" ++ Json.stringify v ++ "," ++ stringifyMembers rest

end

/-- Look up a key in a JSON object; `none` on non-objects or missing keys. -/
def Json.lookup : Json → String → Option Json
  | .obj fields, k => fields.lookup k
  | _, _ => none

/-- Whitespace skipping for the JSON reader. -/
def skipWs : List Char → List Char
  | c :: rest =>
      if c = ' ' ∨ c = Char.ofNat 10 ∨ c = Char.ofNat 9 ∨ c = Char.ofNat 13 then
        skipWs rest
      else c :: rest
  | [] => []

/-- Consume characters of a JSON string body up to the closing quote
(escape sequences are outside the modelled subset). -/
def takeStringChars : List Char → Option (List Char × List Char)
  | [] => none
  | c :: rest =>
      if c = quoteChar then some ([], rest)
      else (takeStringChars rest).map (fun p => (c :: p.1, p.2))

/-- Split a leading run of decimal digits. -/
def takeDigits : List Char → List Char × List Char
  | [] => ([], [])
  | c :: rest =>
      if c.isDigit then
        let p := takeDigits rest
        (c :: p.1, p.2)
      else ([], c :: rest)

/-- Digits to a natural number. -/
def digitsToNat (ds : List Char) : Nat :=
  ds.foldl (fun acc c => acc * 10 + (c.toNat - 48)) 0

/-- Read a JSON number (optional minus sign, digits, optional fraction). -/
def readNumber (cs : List Char) : Option (ℚ × List Char) :=
  let signed := cs.head? = some '-'
  let body := if signed then cs.tail else cs
  let ip := takeDigits body
  if ip.1 = [] then none
  else
    let intPart : ℚ := (digitsToNat ip.1 : ℚ)
    let withFrac :=
      match ip.2 with
      | c :: rest =>
          if c = '.' then
            let fp := takeDigits rest
            if fp.1 = [] then none
            else some (intPart + (digitsToNat fp.1 : ℚ) / ((10 : ℚ) ^ fp.1.length), fp.2)
          else some (intPart, ip.2)
      | [] => some (intPart, ip.2)
    withFrac.map (fun p => (if signed then -p.1 else p.1, p.2))

mutual

/-- Modelled from JSON.parse, restricted to objects, strings and numbers
(the forms the frontend exchanges); fuelled by remaining input length. -/
def parseValue : Nat → List Char → Option (Json × List Char)
  | 0, _ => none
  | fuel + 1, cs =>
      match skipWs cs with
      | [] => none
      | c :: rest =>
          if c = quoteChar then
            (takeStringChars rest).map (fun p => (Json.str (String.mk p.1), p.2))
          else if c = lbraceChar then
            match skipWs rest with
            | c2 :: rest2 =>
                if c2 = rbraceChar then some (Json.obj [], rest2)
                else
                  (parseObjectBody fuel (c2 :: rest2)).map
                    (fun p => (Json.obj p.1, p.2))
            | [] => none
          else
            (readNumber (c :: rest)).map (fun p => (Json.num p.1, p.2))

/-- Members of a non-empty object body, up to the closing brace. -/
def parseObjectBody : Nat → List Char → Option (List (String × Json) × List Char)
  | 0, _ => none
  | fuel + 1, cs =>
      match skipWs cs with
      | [] => none
      | c :: rest =>
          if c = quoteChar then
            match takeStringChars rest with
            | some (keyChars, rest2) =>
                match skipWs rest2 with
                | c2 :: rest3 =>
                    if c2 = colonChar then
                      match parseValue fuel rest3 with
                      | some (v, rest4) =>
                          match skipWs rest4 with
                          | c3 :: rest5 =>
                              if c3 = commaChar then
                                (parseObjectBody fuel rest5).map
                                  (fun p => ((String.mk keyChars, v) :: p.1, p.2))
                              else if c3 = rbraceChar then
                                some ([(String.mk keyChars, v)], rest5)
                              else none
                          | [] => none
                      | none => none
                    else none
                | [] => none
            | none => none
          else none

end

/-- Top-level JSON parse: the whole input must be one value. -/
def jsonParse (s : String) : Option Json :=
  match parseValue (s.length + 1) s.toList with
  | some (v, rest) => if skipWs rest = [] then some v else none
  | none => none

/-- Transcribed from `handleFill` in src/frontend/src/App.tsx (lines 68-75):
the request body is `JSON.stringify(\x7b byField: JSON.parse(fillInput || "\x7b\x7d") \x7d)`.
The JS `||` takes the fallback exactly when `fillInput` is the empty string
(the only falsy string); a parse failure throws, modelled as `none`. -/
def fillRequestBody (fillInput : String) : Option String :=
  (jsonParse (if fillInput = "" then "\x7b\x7d" else fillInput)).map
    (fun v => Json.stringify (Json.obj [("byField", v)]))

/-! ## Data model (spec §3)

The backend source is not in the tree; these definitions are modelled from
the specification's data model and §4 contracts.
-/

/-- Modelled from the spec: the identity fields of an extracted slip
(taxpayer name, identifier, employer identifier). -/
structure Identity where
  taxpayerName : String
  taxpayerId : String
  employerId : String
deriving Repr, DecidableEq

/-- Modelled from the spec: a normalized slip record — identity, `boxes`
(box code → decimal amount, keys unique) and `otherInfo` (supplementary
code → decimal amount). -/
structure ExtractedSlip where
  identity : Identity
  boxes : List (String × ℚ)
  otherInfo : List (String × ℚ)
deriving Repr, DecidableEq

/-- Modelled from the spec: aggregation policies — sum for repeatable
income/deduction boxes, first-present for single-valued fields, max for
mutually-exclusive variants. -/
inductive Aggregation where
  | sum
  | firstPresent
  | maxPresent
deriving Repr, DecidableEq

/-- Modelled from the spec: rounding policies — full precision, or nearest
whole currency unit with round-half-up. -/
inductive RoundPolicy where
  | exact
  | nearestUnit
deriving Repr, DecidableEq

/-- Round half up to a whole unit. -/
def roundHalfUp (q : ℚ) : ℤ := ⌊q + 1 / 2⌋

/-- Apply a rule's rounding policy at its rounding boundary. -/
def applyRounding : RoundPolicy → ℚ → ℚ
  | .exact, q => q
  | .nearestUnit, q => (roundHalfUp q : ℚ)

/-- Modelled from the spec: a LineRule — the canonical line code it
computes, its source box/other-info codes, an aggregation policy and a
rounding policy. -/
structure LineRule where
  line : String
  sources : List String
  agg : Aggregation
  rounding : RoundPolicy
deriving Repr, DecidableEq

/-- Modelled from the spec: Mapping Engine errors. -/
inductive MapError where
  | unknownCode : String → MapError
  | identityConflict : MapError
  | emptyRequest : MapError
deriving Repr, DecidableEq

/-- Modelled from the spec: Field Resolver error naming the line code. -/
inductive ResolveError where
  | unresolvedField : String → ResolveError
deriving Repr, DecidableEq

/-- The value a slip carries for a code: boxes first, then other info. -/
def slipValue (slip : ExtractedSlip) (code : String) : Option ℚ :=
  match slip.boxes.lookup code with
  | some v => some v
  | none => slip.otherInfo.lookup code

/-- All box and other-info codes a slip mentions. -/
def slipCodes (s : ExtractedSlip) : List String :=
  s.boxes.map Prod.fst ++ s.otherInfo.map Prod.fst

/-- A code is known when some LineRule lists it as a source. -/
def knownCode (rules : List LineRule) (c : String) : Bool :=
  rules.any (fun r => r.sources.contains c)

/-- First input code, in slip order, that matches no LineRule. -/
def firstUnknown (rules : List LineRule) (slips : List ExtractedSlip) : Option String :=
  (slips.flatMap slipCodes).find? (fun c => !(knownCode rules c))

/-- A rule's raw inputs: the values its source codes carry, across all
slips in order (sums are only across slips, never within one). -/
def ruleInputs (slips : List ExtractedSlip) (rule : LineRule) : List ℚ :=
  slips.flatMap (fun s => rule.sources.filterMap (fun c => slipValue s c))

/-- Aggregate a rule's present inputs; a rule with no present input does
not fire. -/
def aggregate (a : Aggregation) (vs : List ℚ) : Option ℚ :=
  match vs with
  | [] => none
  | v :: rest =>
      match a with
      | .sum => some (v :: rest).sum
      | .firstPresent => some v
      | .maxPresent => some (rest.foldl max v)

/-- Modelled from the spec: `mapSlips` (§4.1).  Validates the request is
non-empty, validates identity consistency against the first slip, in
strict mode aborts on the first input code no LineRule knows, then
computes each fired rule's value and rounds it per the rule's policy. -/
def mapSlips (strict : Bool) (rules : List LineRule) (slips : List ExtractedSlip) :
    Except MapError (List (String × ℚ)) :=
  match slips with
  | [] => .error .emptyRequest
  | s₀ :: rest =>
      if rest.all (fun s => s.identity = s₀.identity) then
        match (if strict then firstUnknown rules (s₀ :: rest) else none) with
        | some c => .error (.unknownCode c)
        | none =>
            .ok (rules.filterMap (fun r =>
              (aggregate r.agg (ruleInputs (s₀ :: rest) r)).map
                (fun v => (r.line, applyRounding r.rounding v))))
      else .error .identityConflict

/-- Modelled from the spec: `resolve` (§4.2).  A line with a catalog entry
resolves to its field identifier; a line with a default (zero) value and
no entry is silently omitted; a non-default line with no entry fails
naming the line code. -/
def resolve (lineValues : List (String × ℚ)) (catalog : List (String × String)) :
    Except ResolveError (List (String × ℚ)) :=
  match lineValues with
  | [] => .ok []
  | (line, v) :: rest =>
      match catalog.lookup line with
      | some f => (resolve rest catalog).map (fun fs => (f, v) :: fs)
      | none =>
          if v = 0 then resolve rest catalog
          else .error (.unresolvedField line)

/-! ## Form Filler and orchestration (spec §4.3, §4.4, §6, §7) -/

/-- Modelled from the spec: Form Filler error — a field present in the
resolved values but absent from the template at fill time. -/
inductive FillError where
  | templateMismatch : String → FillError
deriving Repr, DecidableEq

/-- Modelled from the spec: a pipeline-stage failure, tagged with the
stage that produced it. -/
inductive PipelineError where
  | mapErr : MapError → PipelineError
  | resolveErr : ResolveError → PipelineError
  | fillErr : FillError → PipelineError
deriving Repr, DecidableEq

/-- Human-readable cause of a Mapping Engine error. -/
def MapError.message : MapError → String
  | .unknownCode c => "Unknown code: " ++ c
  | .identityConflict => "Identity fields differ between slips"
  | .emptyRequest => "Request contains no slips"

/-- Human-readable cause of a Field Resolver error. -/
def ResolveError.message : ResolveError → String
  | .unresolvedField line => "No catalog entry for line " ++ line

/-- Human-readable cause of a Form Filler error. -/
def FillError.message : FillError → String
  | .templateMismatch f => "Field missing from template: " ++ f

/-- Human-readable cause of a pipeline failure. -/
def PipelineError.message : PipelineError → String
  | .mapErr e => e.message
  | .resolveErr e => e.message
  | .fillErr e => e.message

/-- Name of the stage a pipeline failure occurred in. -/
def PipelineError.stageName : PipelineError → String
  | .mapErr _ => "map"
  | .resolveErr _ => "resolve"
  | .fillErr _ => "fill"

/-- Modelled from the spec: the current template — its fillable field
identifiers and their default content. -/
structure Template where
  fields : List String
  content : List (String × String)
deriving Repr, DecidableEq

/-- Render a decimal amount into a document field. -/
def renderAmount (q : ℚ) : String := renderNum q

/-- Modelled from the spec: `fill` (§4.3).  Operates on a copy of the
template: fields absent from the resolved values keep their default
content; a resolved field absent from the template fails with
`TemplateMismatchError`. -/
def fill (fieldValues : List (String × ℚ)) (template : Template) :
    Except FillError (List (String × String)) :=
  match fieldValues.find? (fun p => !(template.fields.contains p.1)) with
  | some p => .error (.templateMismatch p.1)
  | none =>
      .ok (template.content.map (fun fd =>
        match fieldValues.lookup fd.1 with
        | some v => (fd.1, renderAmount v)
        | none => fd))

/-- Modelled from the spec: the Map stage followed by the Resolve stage,
fail-fast, as the orchestrator sequences them. -/
def runMapResolve (strict : Bool) (rules : List LineRule)
    (catalog : List (String × String)) (slips : List ExtractedSlip) :
    Except PipelineError (List (String × ℚ)) :=
  match mapSlips strict rules slips with
  | .error e => .error (.mapErr e)
  | .ok byLine =>
      match resolve byLine catalog with
      | .error e => .error (.resolveErr e)
      | .ok byField => .ok byField

/-! ## HTTP responses (spec §6) -/

/-- An HTTP response body: a byte stream with its content type, or JSON. -/
inductive Body where
  | stream : String → List Nat → Body
  | jsonBody : Json → Body
deriving Repr

/-- An HTTP response: status code and body. -/
structure HttpResponse where
  status : Nat
  body : Body
deriving Repr

/-- Modelled from the spec: every JSON error response has the shape
`\x7b error: string, stage?: string \x7d`. -/
def errorBody (msg : String) (stage : Option String) : Json :=
  Json.obj ([("error", Json.str msg)] ++
    (match stage with
     | some s => [("stage", Json.str s)]
     | none => []))

/-- Serialise a filled document to bytes. -/
def renderPdf (doc : List (String × String)) : List Nat :=
  (doc.flatMap (fun fd => (fd.1 ++ "=" ++ fd.2).toList)).map Char.toNat

/-- Modelled from the spec: where the Fill stage stores its result when
persistent storage is configured, yielding the URL of the stored copy. -/
structure StorageConfig where
  resultUrl : String
deriving Repr, DecidableEq

/-- Modelled from the spec: the Fill endpoint's response — on success,
either a PDF byte stream or, when persistent storage is configured, a JSON
body `\x7b url \x7d` referencing the stored result; on failure, a JSON
error body naming the stage. -/
def fillRespond (storage : Option StorageConfig) (template : Template)
    (byField : List (String × ℚ)) : HttpResponse :=
  match fill byField template with
  | .error e => ⟨500, .jsonBody (errorBody (FillError.message e) (some "fill"))⟩
  | .ok doc =>
      match storage with
      | some cfg => ⟨200, .jsonBody (Json.obj [("url", Json.str cfg.resultUrl)])⟩
      | none => ⟨200, .stream "application/pdf" (renderPdf doc)⟩

/-- Modelled from the spec: the Map endpoint — maps the slips, internally
invokes the Field Resolver, and returns `\x7b byLine, byField \x7d`. -/
def mapRespond (strict : Bool) (rules : List LineRule)
    (catalog : List (String × String)) (slips : List ExtractedSlip) : HttpResponse :=
  match mapSlips strict rules slips with
  | .error e => ⟨400, .jsonBody (errorBody (MapError.message e) (some "map"))⟩
  | .ok byLine =>
      match resolve byLine catalog with
      | .error e => ⟨400, .jsonBody (errorBody (ResolveError.message e) (some "map"))⟩
      | .ok byField =>
          ⟨200, .jsonBody (Json.obj
            [("byLine", Json.obj (byLine.map (fun p => (p.1, Json.num p.2)))),
             ("byField", Json.obj (byField.map (fun p => (p.1, Json.num p.2))))])⟩

/-- Modelled from the spec: the Process endpoint — internally runs
Extract → Map → Fill on the extracted slips and returns the same response
shape as Fill. -/
def processRespond (strict : Bool) (rules : List LineRule)
    (catalog : List (String × String)) (storage : Option StorageConfig)
    (template : Template) (slips : List ExtractedSlip) : HttpResponse :=
  match runMapResolve strict rules catalog slips with
  | .error e => ⟨400, .jsonBody (errorBody e.message (some e.stageName))⟩
  | .ok byField => fillRespond storage template byField

/-! ## Frontend transcriptions (src/frontend/src/App.tsx and the
single-button variant bundled with the backend README) -/

/-- JS `response.ok`: status in the 2xx range. -/
def responseOk (r : HttpResponse) : Bool :=
  200 ≤ r.status && r.status < 300

/-- The content type a response reports for its body. -/
def contentTypeOf : Body → String
  | .stream ct _ => ct
  | .jsonBody _ => "application/json"

/-- JS `String.prototype.includes` on a non-empty needle. -/
def includesSubstr (hay needle : String) : Bool :=
  (hay.splitOn needle).length != 1

/-- JS `response.json()`: the parsed body, `none` when parsing throws. -/
def bodyJson : Body → Option Json
  | .jsonBody j => some j
  | .stream _ bytes => jsonParse (String.mk (bytes.map Char.ofNat))

/-- JS truthiness of a JSON value (`""` and `0` are falsy). -/
def jsTruthy : Json → Bool
  | .str s => s != ""
  | .num q => q != 0
  | .obj _ => true

/-- JS string coercion of a JSON value. -/
def jsToString : Json → String
  | .str s => s
  | .num q => renderNum q
  | .obj _ => "[object Object]"

/-- What a frontend handler does with a completed fetch. -/
inductive ConsumerAction where
  | openUrl : String → ConsumerAction
  | download : String → ConsumerAction
  | failed : String → ConsumerAction
deriving Repr, DecidableEq

/-- Transcribed from `handleFill` in src/frontend/src/App.tsx (lines
76-93): a non-OK response throws `detail?.error ?? statusText`; an OK
response whose content type includes `application/json` and whose body
has a truthy `url` opens that URL; anything else downloads the blob as
`Completed-T1.pdf`. -/
def handleFillConsume (r : HttpResponse) (statusText : String) : ConsumerAction :=
  if !(responseOk r) then
    let detail := (bodyJson r.body).getD (Json.obj [])
    .failed (match detail.lookup "error" with
             | some v => jsToString v
             | none => statusText)
  else if includesSubstr (contentTypeOf r.body) "application/json" then
    match bodyJson r.body with
    | some j =>
        match j.lookup "url" with
        | some u =>
            if jsTruthy u then .openUrl (jsToString u)
            else .download "Completed-T1.pdf"
        | none => .download "Completed-T1.pdf"
    | none => .failed "Unexpected end of JSON input"
  else .download "Completed-T1.pdf"

/-- Transcribed from `handleProcess` in src/frontend/src/App.tsx (lines
112-129); the response handling is line-for-line the code of
`handleFill`'s (lines 76-93). -/
def handleProcessConsume (r : HttpResponse) (statusText : String) : ConsumerAction :=
  if !(responseOk r) then
    let detail := (bodyJson r.body).getD (Json.obj [])
    .failed (match detail.lookup "error" with
             | some v => jsToString v
             | none => statusText)
  else if includesSubstr (contentTypeOf r.body) "application/json" then
    match bodyJson r.body with
    | some j =>
        match j.lookup "url" with
        | some u =>
            if jsTruthy u then .openUrl (jsToString u)
            else .download "Completed-T1.pdf"
        | none => .download "Completed-T1.pdf"
    | none => .failed "Unexpected end of JSON input"
  else .download "Completed-T1.pdf"

/-! ## The single-button frontend (App bundled with the backend README) -/

/-- The React state of the single-button App. -/
structure AppState where
  t4File : Option String
  error : String
  status : String
  notification : String
  isProcessing : Bool
deriving Repr, DecidableEq

/-- How the fetch inside the single-button `handleProcess` completes. -/
inductive ProcessOutcome where
  | okJsonUrl : String → ProcessOutcome
  | okJsonNoUrl : ProcessOutcome
  | okBinary : ProcessOutcome
  | httpError : Option String → String → ProcessOutcome
  | fetchFailure : Option String → ProcessOutcome
deriving Repr, DecidableEq

/-- Transcribed from `handleProcess` of the single-button App (bundled
with the backend README, lines 44-99): without a file it only sets the
error and returns; otherwise it clears messages, sets `isProcessing`,
runs the fetch and reacts to its outcome, and the `finally` block resets
`isProcessing` on every path through the `try`. -/
def handleProcessApp (s : AppState) (outcome : ProcessOutcome) : AppState :=
  match s.t4File with
  | none => { s with error := "Please choose a T4 PDF before processing." }
  | some _ =>
      let s1 := { s with error := "", notification := "",
                         status := "Uploading T4 slip…", isProcessing := true }
      let s2 :=
        match outcome with
        | .okJsonUrl _url =>
            let t := { s1 with status := "Generating your completed T1…" }
            let t2 := { t with notification := "Your completed T1 has been generated. It opened in a new tab." }
            { t2 with status := "" }
        | .okJsonNoUrl =>
            let t := { s1 with status := "Generating your completed T1…" }
            let t2 := { t with status := "Preparing download…" }
            let t3 := { t2 with notification := "Your completed T1 has been downloaded." }
            { t3 with status := "" }
        | .okBinary =>
            let t := { s1 with status := "Generating your completed T1…" }
            let t2 := { t with status := "Preparing download…" }
            let t3 := { t2 with notification := "Your completed T1 has been downloaded." }
            { t3 with status := "" }
        | .httpError detail statusText =>
            { s1 with status := "", error := detail.getD statusText }
        | .fetchFailure msg =>
            { s1 with status := "", error := msg.getD "Processing failed" }
      { s2 with isProcessing := false }

/-! ## Concrete rule set and slips for the specified scenarios

Modelled from the spec: box 14 (employment income) feeds the income line,
box 22 (tax deducted at source) feeds the tax-withheld line; both are
repeatable boxes aggregated by sum and rounded to the nearest unit. -/

/-- The employment-income line rule (box 14, summed across slips). -/
def incomeRule : LineRule := ⟨"10100", ["14"], .sum, .nearestUnit⟩

/-- The tax-withheld line rule (box 22, summed across slips). -/
def taxRule : LineRule := ⟨"43700", ["22"], .sum, .nearestUnit⟩

/-- The rule set the scenarios exercise. -/
def t4Rules : List LineRule := [incomeRule, taxRule]

/-- Modelled from the spec: a field-name catalog snapshot mapping the two
scenario lines to template field identifiers. -/
def t1Catalog : List (String × String) :=
  [("10100", "form1.page3.Line10100"), ("43700", "form1.page8.Line43700")]

/-- The template holding the catalog's fields. -/
def t1Template : Template :=
  ⟨["form1.page3.Line10100", "form1.page8.Line43700"],
   [("form1.page3.Line10100", ""), ("form1.page8.Line43700", "")]⟩

/-- A shared taxpayer identity for the scenario slips. -/
def janeIdentity : Identity := ⟨"Jane Doe", "123456789", "Acme Inc"⟩

/-- One slip with box 14 = 50000.00 and box 22 = 8000.00. -/
def slipBoth : ExtractedSlip := ⟨janeIdentity, [("14", 50000), ("22", 8000)], []⟩

/-- A slip with box 14 = 30000.00. -/
def slipThirty : ExtractedSlip := ⟨janeIdentity, [("14", 30000)], []⟩

/-- A slip with box 14 = 20000.00. -/
def slipTwenty : ExtractedSlip := ⟨janeIdentity, [("14", 20000)], []⟩

/-! ## Claim theorems -/

/-- C9: In the frontend Fill handler, an empty fill-input textarea yields
the request body `\x7b"byField":\x7b\x7d\x7d` exactly — the JS `||`
fallback replaces the empty string before `JSON.parse` can fail. -/
theorem fill_body_empty_textarea :
    fillRequestBody "" = some "\x7b\"byField\":\x7b\x7d\x7d" := by
  decide

/-- C10: every completion of the single-button `handleProcess` with a file
selected — success, non-OK HTTP response, or thrown exception — leaves
`isProcessing` false, so the upload control and button are re-enabled. -/
theorem handleProcess_resets_isProcessing :
    ∀ (s : AppState) (f : String) (o : ProcessOutcome),
      s.t4File = some f → (handleProcessApp s o).isProcessing = false := by
  intro s f o h
  unfold handleProcessApp
  rw [h]

/-- Witness for C10 at a concrete state and a thrown-exception outcome. -/
theorem handleProcess_resets_isProcessing_witness :
    (handleProcessApp ⟨some "t4.pdf", "", "", "", false⟩ (.fetchFailure none)).isProcessing
      = false :=
  handleProcess_resets_isProcessing ⟨some "t4.pdf", "", "", "", false⟩ "t4.pdf"
    (.fetchFailure none) rfl

/-- C8: for a fixed rule set, catalog and template, the Map→Resolve
pipeline and the Form Filler are deterministic — equal inputs give equal
outputs, run after run. -/
theorem pipeline_deterministic :
    (∀ (strict : Bool) (rules : List LineRule) (catalog : List (String × String))
       (slips₁ slips₂ : List ExtractedSlip), slips₁ = slips₂ →
       runMapResolve strict rules catalog slips₁ = runMapResolve strict rules catalog slips₂)
    ∧ (∀ (template : Template) (fvs₁ fvs₂ : List (String × ℚ)), fvs₁ = fvs₂ →
       fill fvs₁ template = fill fvs₂ template) := by
  constructor
  · intro strict rules catalog s₁ s₂ h
    rw [h]
  · intro template f₁ f₂ h
    rw [h]

/-- Witness for C8 at the one-slip scenario and a concrete field mapping. -/
theorem pipeline_deterministic_witness :
    runMapResolve true t4Rules t1Catalog [slipBoth]
        = runMapResolve true t4Rules t1Catalog [slipBoth]
    ∧ fill [("form1.page3.Line10100", 50000)] t1Template
        = fill [("form1.page3.Line10100", 50000)] t1Template :=
  ⟨pipeline_deterministic.1 true t4Rules t1Catalog [slipBoth] [slipBoth] rfl,
   pipeline_deterministic.2 t1Template [("form1.page3.Line10100", 50000)]
     [("form1.page3.Line10100", 50000)] rfl⟩

/-- Helper: a successful Fill response is a PDF stream when no storage is
configured, and a `\x7b url \x7d` JSON body when storage is configured. -/
theorem fillRespond_success_shape (storage : Option StorageConfig) (template : Template)
    (byField : List (String × ℚ)) (h : (fillRespond storage template byField).status = 200) :
    ((∃ bytes, (fillRespond storage template byField).body
        = Body.stream "application/pdf" bytes) ∧ storage = none)
    ∨ (∃ cfg, storage = some cfg ∧
        (fillRespond storage template byField).body
          = Body.jsonBody (Json.obj [("url", Json.str cfg.resultUrl)])) := by
  unfold fillRespond at h ⊢
  cases hf : fill byField template with
  | error e =>
      rw [hf] at h
      simp at h
  | ok doc =>
      cases storage with
      | none => exact Or.inl ⟨⟨renderPdf doc, rfl⟩, rfl⟩
      | some cfg => exact Or.inr ⟨cfg, rfl, rfl⟩

/-- Helper: a failed Fill response carries a JSON error body. -/
theorem fillRespond_error_shape (storage : Option StorageConfig) (template : Template)
    (byField : List (String × ℚ)) (h : (fillRespond storage template byField).status ≠ 200) :
    ∃ msg stage, (fillRespond storage template byField).body
      = Body.jsonBody (errorBody msg stage) := by
  unfold fillRespond at h ⊢
  cases hf : fill byField template with
  | error e =>
      exact ⟨e.message, some "fill", rfl⟩
  | ok doc =>
      rw [hf] at h
      cases storage with
      | none => exact absurd rfl h
      | some cfg => exact absurd rfl h


/-- Helper: the `error` field of every JSON error body is the cause. -/
theorem errorBody_error_field (msg : String) (stage : Option String) :
    (errorBody msg stage).lookup "error" = some (Json.str msg) := by
  cases stage <;> rfl

/-- C6: a successful Fill response is either a byte stream with a binary
content type or, exactly when persistent storage is configured, a JSON
body `\x7b url \x7d` referencing the stored result — never a third shape. -/
theorem fill_response_two_shapes :
    ∀ (storage : Option StorageConfig) (template : Template) (byField : List (String × ℚ)),
      (fillRespond storage template byField).status = 200 →
      ((∃ bytes, (fillRespond storage template byField).body
          = Body.stream "application/pdf" bytes) ∧ storage = none)
      ∨ (∃ cfg, storage = some cfg ∧
          (fillRespond storage template byField).body
            = Body.jsonBody (Json.obj [("url", Json.str cfg.resultUrl)])) :=
  fun storage template byField h => fillRespond_success_shape storage template byField h

/-- Witness for C6: with no storage configured, filling one field of the
T1 template succeeds and streams a PDF. -/
theorem fill_response_two_shapes_witness :
    ((∃ bytes, (fillRespond none t1Template [("form1.page3.Line10100", 50000)]).body
        = Body.stream "application/pdf" bytes) ∧ (none : Option StorageConfig) = none)
    ∨ (∃ cfg, (none : Option StorageConfig) = some cfg ∧
        (fillRespond none t1Template [("form1.page3.Line10100", 50000)]).body
          = Body.jsonBody (Json.obj [("url", Json.str cfg.resultUrl)])) :=
  fill_response_two_shapes none t1Template [("form1.page3.Line10100", 50000)]
    (by with_unfolding_all rfl)

/-- C5: a successful Process run returns literally the Fill endpoint's
response for the mapped field values, and the frontend consumes the two
responses with identical routines. -/
theorem process_fill_same_shape :
    (∀ (strict : Bool) (rules : List LineRule) (catalog : List (String × String))
       (storage : Option StorageConfig) (template : Template)
       (slips : List ExtractedSlip) (byField : List (String × ℚ)),
       runMapResolve strict rules catalog slips = .ok byField →
       processRespond strict rules catalog storage template slips
         = fillRespond storage template byField)
    ∧ (∀ (r : HttpResponse) (statusText : String),
       handleFillConsume r statusText = handleProcessConsume r statusText) := by
  constructor
  · intro strict rules catalog storage template slips byField h
    unfold processRespond
    rw [h]
  · intro r statusText
    rfl

/-- Witness for C5 at the one-slip scenario. -/
theorem process_fill_same_shape_witness :
    processRespond true t4Rules t1Catalog none t1Template [slipBoth]
      = fillRespond none t1Template
          [("form1.page3.Line10100", 50000), ("form1.page8.Line43700", 8000)] :=
  process_fill_same_shape.1 true t4Rules t1Catalog none t1Template [slipBoth]
    [("form1.page3.Line10100", 50000), ("form1.page8.Line43700", 8000)]
    (by with_unfolding_all rfl)

/-- C7: every JSON error response of the Map, Fill and Process endpoints
has the shape `\x7b error, stage? \x7d`, and reading its `error` field
always yields the human-readable cause. -/
theorem error_response_shape :
    (∀ (strict : Bool) (rules : List LineRule) (catalog : List (String × String))
       (slips : List ExtractedSlip),
       (mapRespond strict rules catalog slips).status ≠ 200 →
       ∃ msg stage, (mapRespond strict rules catalog slips).body
         = Body.jsonBody (errorBody msg stage))
    ∧ (∀ (storage : Option StorageConfig) (template : Template)
         (byField : List (String × ℚ)),
       (fillRespond storage template byField).status ≠ 200 →
       ∃ msg stage, (fillRespond storage template byField).body
         = Body.jsonBody (errorBody msg stage))
    ∧ (∀ (strict : Bool) (rules : List LineRule) (catalog : List (String × String))
         (storage : Option StorageConfig) (template : Template)
         (slips : List ExtractedSlip),
       (processRespond strict rules catalog storage template slips).status ≠ 200 →
       ∃ msg stage, (processRespond strict rules catalog storage template slips).body
         = Body.jsonBody (errorBody msg stage))
    ∧ (∀ (msg : String) (stage : Option String),
       (errorBody msg stage).lookup "error" = some (Json.str msg)) := by
  refine ⟨?_, fillRespond_error_shape, ?_, errorBody_error_field⟩
  · intro strict rules catalog slips h
    cases hm : mapSlips strict rules slips with
    | error e => exact ⟨e.message, some "map", by simp [mapRespond, hm]⟩
    | ok byLine =>
        cases hr : resolve byLine catalog with
        | error e => exact ⟨e.message, some "map", by simp [mapRespond, hm, hr]⟩
        | ok byField =>
            refine absurd ?_ h
            simp [mapRespond, hm, hr]
  · intro strict rules catalog storage template slips h
    cases hm : runMapResolve strict rules catalog slips with
    | error e => exact ⟨e.message, some e.stageName, by simp [processRespond, hm]⟩
    | ok byField =>
        have hp : processRespond strict rules catalog storage template slips
            = fillRespond storage template byField := by
          simp [processRespond, hm]
        rw [hp] at h ⊢
        exact fillRespond_error_shape storage template byField h

/-- Witness for C7: an empty request fails the Map endpoint with a JSON
error body, an unfillable field fails the Fill endpoint likewise, the
Process endpoint propagates the Map failure, and the error field of a
concrete error body reads back its cause. -/
theorem error_response_shape_witness :
    (∃ msg stage, (mapRespond true t4Rules t1Catalog []).body
       = Body.jsonBody (errorBody msg stage))
    ∧ (∃ msg stage, (fillRespond none t1Template [("no.such.field", 1)]).body
       = Body.jsonBody (errorBody msg stage))
    ∧ (∃ msg stage, (processRespond true t4Rules t1Catalog none t1Template []).body
       = Body.jsonBody (errorBody msg stage))
    ∧ (errorBody "boom" (some "map")).lookup "error" = some (Json.str "boom") :=
  ⟨error_response_shape.1 true t4Rules t1Catalog [] (by decide),
   error_response_shape.2.1 none t1Template [("no.such.field", 1)] (by with_unfolding_all decide),
   error_response_shape.2.2.1 true t4Rules t1Catalog none t1Template [] (by decide),
   error_response_shape.2.2.2 "boom" (some "map")⟩

/-- A slip carrying only the unknown box code 99. -/
def unknownSlip : ExtractedSlip := ⟨janeIdentity, [("99", 5)], []⟩

/-- A slip whose identity fields differ from the scenario taxpayer's. -/
def conflictingSlip : ExtractedSlip :=
  ⟨⟨"John Roe", "987654321", "Beta Ltd"⟩, [("14", 1000)], []⟩

/-- C1: a line aggregated by a sum rule maps to the rounded sum of its
source-box values across the slips; in particular the two concrete
scenarios of the spec hold. -/
theorem mapSlips_sum_rule :
    (∀ (strict : Bool) (rules : List LineRule) (slips : List ExtractedSlip)
       (r : LineRule) (m : List (String × ℚ)),
       mapSlips strict rules slips = .ok m → r ∈ rules → r.agg = .sum →
       ruleInputs slips r ≠ [] →
       (r.line, applyRounding r.rounding (ruleInputs slips r).sum) ∈ m)
    ∧ mapSlips true t4Rules [slipBoth] = .ok [("10100", 50000), ("43700", 8000)]
    ∧ mapSlips true t4Rules [slipThirty, slipTwenty] = .ok [("10100", 50000)] := by
  refine ⟨?_, by with_unfolding_all rfl, by with_unfolding_all rfl⟩
  intro strict rules slips r m hok hr hagg hne
  cases slips with
  | nil => simp [mapSlips] at hok
  | cons s₀ rest =>
      simp only [mapSlips] at hok
      split at hok
      · split at hok
        · cases hok
        · injection hok with hm
          subst hm
          refine List.mem_filterMap.mpr ⟨r, hr, ?_⟩
          rw [hagg]
          cases hin : ruleInputs (s₀ :: rest) r with
          | nil => exact absurd hin hne
          | cons v vs => simp [aggregate]
      · cases hok

/-- Witness for C1 at the two-slip scenario: the summed income line. -/
theorem mapSlips_sum_rule_witness :
    (incomeRule.line,
      applyRounding incomeRule.rounding (ruleInputs [slipThirty, slipTwenty] incomeRule).sum)
      ∈ ([("10100", (50000 : ℚ))] : List (String × ℚ)) :=
  mapSlips_sum_rule.1 true t4Rules [slipThirty, slipTwenty] incomeRule
    [("10100", 50000)] (by with_unfolding_all rfl) (by decide) rfl
    (by with_unfolding_all decide)

/-- C2: slips with differing identity fields in one request always yield
`IdentityConflictError` and never a mapped result. -/
theorem mapSlips_identity_conflict :
    ∀ (strict : Bool) (rules : List LineRule) (slips : List ExtractedSlip),
      (∃ a ∈ slips, ∃ b ∈ slips, a.identity ≠ b.identity) →
      mapSlips strict rules slips = .error .identityConflict
      ∧ ∀ m, mapSlips strict rules slips ≠ .ok m := by
  intro strict rules slips h
  obtain ⟨a, ha, b, hb, hab⟩ := h
  cases slips with
  | nil => cases ha
  | cons s₀ rest =>
      have key : ∀ x : ExtractedSlip, x ∈ s₀ :: rest → x.identity ≠ s₀.identity →
          ∃ s ∈ rest, s.identity ≠ s₀.identity := by
        intro x hx hne
        rcases List.mem_cons.mp hx with rfl | hx'
        · exact absurd rfl hne
        · exact ⟨x, hx', hne⟩
      have hid : ∃ s ∈ rest, s.identity ≠ s₀.identity := by
        by_cases hA : a.identity = s₀.identity
        · refine key b hb ?_
          intro hB
          exact hab (hA.trans hB.symm)
        · exact key a ha hA
      obtain ⟨s, hs, hsne⟩ := hid
      have hcond : ¬ (rest.all (fun s => decide (s.identity = s₀.identity)) = true) := by
        intro hc
        rw [List.all_eq_true] at hc
        exact hsne (of_decide_eq_true (hc s hs))
      have h1 : mapSlips strict rules (s₀ :: rest) = .error .identityConflict := by
        simp only [mapSlips]
        split
        next hc => exact absurd hc hcond
        next => rfl
      refine ⟨h1, fun m hm => ?_⟩
      rw [h1] at hm
      cases hm

/-- Witness for C2: two slips for different taxpayers conflict. -/
theorem mapSlips_identity_conflict_witness :
    mapSlips true t4Rules [slipBoth, conflictingSlip] = .error .identityConflict
    ∧ ∀ m, mapSlips true t4Rules [slipBoth, conflictingSlip] ≠ .ok m :=
  mapSlips_identity_conflict true t4Rules [slipBoth, conflictingSlip]
    ⟨slipBoth, List.mem_cons_self _ _,
     conflictingSlip, List.mem_cons_of_mem _ (List.mem_cons_self _ _),
     by decide⟩

/-- Helper: a line list whose uncataloged lines all carry the default zero
value resolves successfully, producing entries only for cataloged lines. -/
theorem resolve_defaults_omitted (catalog : List (String × String)) :
    ∀ lineValues : List (String × ℚ),
      (∀ p ∈ lineValues, catalog.lookup p.1 = none → p.2 = 0) →
      resolve lineValues catalog
        = .ok (lineValues.filterMap
            (fun p => (catalog.lookup p.1).map (fun f => (f, p.2)))) := by
  intro lineValues
  induction lineValues with
  | nil => intro _; rfl
  | cons p rest ih =>
      intro hp
      obtain ⟨line, v⟩ := p
      simp only [resolve]
      cases hl : catalog.lookup line with
      | some f =>
          rw [ih (fun q hq hqn => hp q (List.mem_cons_of_mem _ hq) hqn)]
          simp [List.filterMap_cons, hl, Except.map]
      | none =>
          have hv : v = 0 := hp (line, v) (List.mem_cons_self _ _) hl
          rw [if_pos hv, ih (fun q hq hqn => hp q (List.mem_cons_of_mem _ hq) hqn)]
          simp [List.filterMap_cons, hl]

/-- Helper: a non-default line with no catalog entry makes `resolve` fail
with `UnresolvedFieldError` naming an offending line code. -/
theorem resolve_nonzero_unresolved (catalog : List (String × String)) :
    ∀ lineValues : List (String × ℚ),
      (∃ p ∈ lineValues, p.2 ≠ 0 ∧ catalog.lookup p.1 = none) →
      ∃ line v, (line, v) ∈ lineValues ∧ v ≠ 0 ∧ catalog.lookup line = none ∧
        resolve lineValues catalog = .error (.unresolvedField line) := by
  intro lineValues
  induction lineValues with
  | nil => rintro ⟨p, hp, -⟩; cases hp
  | cons q rest ih =>
      rintro ⟨p, hp, hpv, hpl⟩
      obtain ⟨line, v⟩ := q
      cases hl : catalog.lookup line with
      | none =>
          by_cases hv : v = 0
          · have hrest : ∃ p ∈ rest, p.2 ≠ 0 ∧ catalog.lookup p.1 = none := by
              rcases List.mem_cons.mp hp with rfl | hp'
              · exact absurd hv hpv
              · exact ⟨p, hp', hpv, hpl⟩
            obtain ⟨line', v', hmem, hv', hl', heq⟩ := ih hrest
            refine ⟨line', v', List.mem_cons_of_mem _ hmem, hv', hl', ?_⟩
            simp only [resolve]
            rw [hl, if_pos hv]
            exact heq
          · refine ⟨line, v, List.mem_cons_self _ _, hv, hl, ?_⟩
            simp only [resolve]
            rw [hl, if_neg hv]
      | some f =>
          have hrest : ∃ p ∈ rest, p.2 ≠ 0 ∧ catalog.lookup p.1 = none := by
            rcases List.mem_cons.mp hp with rfl | hp'
            · rw [hpl] at hl; cases hl
            · exact ⟨p, hp', hpv, hpl⟩
          obtain ⟨line', v', hmem, hv', hl', heq⟩ := ih hrest
          refine ⟨line', v', List.mem_cons_of_mem _ hmem, hv', hl', ?_⟩
          simp only [resolve]
          rw [hl, heq]
          rfl

/-- C3: resolving a line with a non-default value and no catalog entry
fails with `UnresolvedFieldError` naming the line code; lines with the
default zero value and no catalog entry are silently omitted and the
resolution succeeds. -/
theorem resolve_unresolved_and_default :
    (∀ (lineValues : List (String × ℚ)) (catalog : List (String × String)),
       (∃ p ∈ lineValues, p.2 ≠ 0 ∧ catalog.lookup p.1 = none) →
       ∃ line v, (line, v) ∈ lineValues ∧ v ≠ 0 ∧ catalog.lookup line = none ∧
         resolve lineValues catalog = .error (.unresolvedField line))
    ∧ (∀ (lineValues : List (String × ℚ)) (catalog : List (String × String)),
       (∀ p ∈ lineValues, catalog.lookup p.1 = none → p.2 = 0) →
       resolve lineValues catalog
         = .ok (lineValues.filterMap
             (fun p => (catalog.lookup p.1).map (fun f => (f, p.2))))) :=
  ⟨fun lineValues catalog => resolve_nonzero_unresolved catalog lineValues,
   fun lineValues catalog => resolve_defaults_omitted catalog lineValues⟩

/-- Witness for C3: a non-zero line with an empty catalog fails naming its
code; a zero line with an empty catalog resolves to no field entries. -/
theorem resolve_unresolved_and_default_witness :
    (∃ line v, (line, v) ∈ ([("10100", (50000 : ℚ))] : List (String × ℚ)) ∧ v ≠ 0 ∧
       ([] : List (String × String)).lookup line = none ∧
       resolve [("10100", 50000)] [] = .error (.unresolvedField line))
    ∧ resolve [("999", 0)] []
        = .ok (([("999", (0 : ℚ))] : List (String × ℚ)).filterMap
            (fun p => (([] : List (String × String)).lookup p.1).map (fun f => (f, p.2)))) :=
  ⟨resolve_unresolved_and_default.1 [("10100", 50000)] []
     ⟨("10100", 50000), List.mem_cons_self _ _, by norm_num, rfl⟩,
   resolve_unresolved_and_default.2 [("999", 0)] [] (by simp)⟩

/-- C4: in strict mode the Mapping Engine aborts with `UnknownCodeError`
naming the first input code no LineRule knows; in lenient mode it raises
no error and mapping continues to a result. -/
theorem unknown_codes_strict_lenient :
    (∀ (rules : List LineRule) (s₀ : ExtractedSlip) (rest : List ExtractedSlip)
       (c : String),
       (∀ s ∈ rest, s.identity = s₀.identity) →
       firstUnknown rules (s₀ :: rest) = some c →
       mapSlips true rules (s₀ :: rest) = .error (.unknownCode c))
    ∧ (∀ (rules : List LineRule) (s₀ : ExtractedSlip) (rest : List ExtractedSlip),
       (∀ s ∈ rest, s.identity = s₀.identity) →
       ∃ m, mapSlips false rules (s₀ :: rest) = .ok m) := by
  constructor
  · intro rules s₀ rest c hid hc
    have hcond : rest.all (fun s => decide (s.identity = s₀.identity)) = true :=
      List.all_eq_true.mpr (fun s hs => decide_eq_true (hid s hs))
    simp only [mapSlips]
    rw [if_pos hcond]
    simp [hc]
  · intro rules s₀ rest hid
    have hcond : rest.all (fun s => decide (s.identity = s₀.identity)) = true :=
      List.all_eq_true.mpr (fun s hs => decide_eq_true (hid s hs))
    refine ⟨rules.filterMap (fun r =>
      (aggregate r.agg (ruleInputs (s₀ :: rest) r)).map
        (fun v => (r.line, applyRounding r.rounding v))), ?_⟩
    simp only [mapSlips]
    rw [if_pos hcond]
    rfl

/-- Witness for C4 at a slip carrying the unknown box code 99. -/
theorem unknown_codes_strict_lenient_witness :
    mapSlips true t4Rules [unknownSlip] = .error (.unknownCode "99")
    ∧ ∃ m, mapSlips false t4Rules [unknownSlip] = .ok m :=
  ⟨unknown_codes_strict_lenient.1 t4Rules unknownSlip [] "99"
     (fun s hs => absurd hs (List.not_mem_nil s)) (by with_unfolding_all rfl),
   unknown_codes_strict_lenient.2 t4Rules unknownSlip []
     (fun s hs => absurd hs (List.not_mem_nil s))⟩
